import Mathlib

/-!
Verification of `devops_test_calculations.py`, a closed-form capacity and
cost calculator for two workloads (batch translation and LLM chat).

All arithmetic in the source is Python numeric arithmetic over module
constants; it is embedded here over the exact rationals.  Python division
raises `ZeroDivisionError` on a zero divisor, so division is modelled as an
`Option`-valued operation and every function whose body divides returns an
`Option`.  Integer-annotated arguments are taken as `ℤ`.
-/

namespace DevopsTestCalculations

/-- Peak FP32 throughput per GPU, in tera-FLOPs per second (`GPU_TFLOPS = 90`). -/
def GPU_TFLOPS : ℚ := 90

/-- Assumed cost per GPU-hour in USD (`GPU_HOURLY_COST = 2.0`). -/
def GPU_HOURLY_COST : ℚ := 2

/-- Words translated per minute per GPU (`WORDS_PER_MIN_TRANSLATION = 1000`). -/
def WORDS_PER_MIN_TRANSLATION : ℚ := 1000

/-- Words translated per hour per GPU (`WORDS_PER_MIN_TRANSLATION * 60`). -/
def WORDS_PER_HOUR_TRANSLATION : ℚ := WORDS_PER_MIN_TRANSLATION * 60

/-- Python division: raises `ZeroDivisionError` when the divisor is zero,
modelled as `none`; otherwise exact rational division. -/
def pydiv (a b : ℚ) : Option ℚ := if b = 0 then none else some (a / b)

/-- Embedding of `translation_estimates(words_per_day)`: returns
`(gpu_hours, total_tflops, cost)` for the daily translation load. -/
def translation_estimates (words_per_day : ℤ) : Option (ℚ × ℚ × ℚ) := do
  let gpu_hours ← pydiv (words_per_day : ℚ) WORDS_PER_HOUR_TRANSLATION
  let total_tflops := gpu_hours * 3600 * GPU_TFLOPS
  let cost := gpu_hours * GPU_HOURLY_COST
  pure (gpu_hours, total_tflops, cost)

/-- Embedding of `translation_doc_time(words, num_gpus)`: minutes to translate
a document of size `words` on `num_gpus` GPUs.  In the source `num_gpus`
defaults to 1; here it is always passed explicitly. -/
def translation_doc_time (words : ℤ) (num_gpus : ℤ) : Option ℚ := do
  let words_per_min_total := WORDS_PER_MIN_TRANSLATION * (num_gpus : ℚ)
  pydiv (words : ℚ) words_per_min_total

/-- Model size in billions of parameters (`LLM_PARAMS_BILLIONS = 13`). -/
def LLM_PARAMS_BILLIONS : ℚ := 13

/-- FLOPs per token (`2 * LLM_PARAMS_BILLIONS * 1e9`, so 26e9 here). -/
def FLOPS_PER_TOKEN : ℚ := 2 * LLM_PARAMS_BILLIONS * 1000000000

/-- Average tokens per user per day (`TOKENS_PER_USER_PER_DAY = 3000`). -/
def TOKENS_PER_USER_PER_DAY : ℤ := 3000

/-- Embedding of `llm_chat_estimates(users_per_day)`: returns
`(tokens, gpu_hours, total_tflops, cost)` for the daily chat load. -/
def llm_chat_estimates (users_per_day : ℤ) : Option (ℤ × ℚ × ℚ × ℚ) := do
  let tokens := users_per_day * TOKENS_PER_USER_PER_DAY
  let flops_day := (tokens : ℚ) * FLOPS_PER_TOKEN
  let flops_per_second := GPU_TFLOPS * 1000000000000
  let gpu_seconds ← pydiv flops_day flops_per_second
  let gpu_hours ← pydiv gpu_seconds 3600
  let total_tflops := gpu_hours * 3600 * GPU_TFLOPS
  let cost := gpu_hours * GPU_HOURLY_COST
  pure (tokens, gpu_hours, total_tflops, cost)

/-- Direct single-hop derivation stated by the spec: total compute-operations
carried through from step (b), namely tokens times operations-per-token,
expressed in tera-operations (divided by 1e12).  Written from the words of
the spec to compare against the round-trip value the code reports. -/
def llm_chat_total_ops_direct (users_per_day : ℤ) : ℚ :=
  ((users_per_day * TOKENS_PER_USER_PER_DAY : ℤ) : ℚ) * FLOPS_PER_TOKEN / 1000000000000

/-- Displayed value of `x` at `d` decimal places: nearest rounding, the model
of the fixed-precision `f`-string formatting in the report printers. -/
def fmtRound (d : ℕ) (x : ℚ) : ℚ := (round (x * 10 ^ d) : ℚ) / 10 ^ d

/-- Numeric fields interpolated by `print_translation_summary`: the two
document latencies (10000 words on 1 and 2 GPUs) and, per scenario in
`[10_000, 100_000, 1_000_000]`, the row
`(words, gpu_hours, total_tflops, cost)` destructured from
`translation_estimates`. -/
def translation_summary_fields : Option (List ℚ × List (ℤ × ℚ × ℚ × ℚ)) := do
  let docTimes ← ([1, 2] : List ℤ).mapM (fun g => translation_doc_time 10000 g)
  let rows ← ([10000, 100000, 1000000] : List ℤ).mapM (fun w => do
    let r ← translation_estimates w
    pure (w, r.1, r.2.1, r.2.2))
  pure (docTimes, rows)

/-- Numeric fields interpolated by `print_llm_chat_summary`: per scenario in
`[100, 10_000, 100_000]`, the row `(users, tokens, gpu_hours, total_tflops,
cost)` destructured from `llm_chat_estimates`. -/
def llm_chat_summary_fields : Option (List (ℤ × ℤ × ℚ × ℚ × ℚ)) := do
  ([100, 10000, 100000] : List ℤ).mapM (fun u => do
    let r ← llm_chat_estimates u
    pure (u, r.1, r.2.1, r.2.2.1, r.2.2.2))

/-- Ambient interpreter state a non-pure Python function could consult:
wall-clock time, position in the execution order, process environment.
The source functions read none of it. -/
structure Ambient where
  clock : ℕ
  callIndex : ℕ
  envVars : List (String × String)

/-- Body of `translation_estimates` evaluated under an explicit ambient
state; the body references only the module constants and the argument. -/
def translation_estimatesAt ( _a : Ambient) (words_per_day : ℤ) : Option (ℚ × ℚ × ℚ) := do
  let gpu_hours ← pydiv (words_per_day : ℚ) WORDS_PER_HOUR_TRANSLATION
  let total_tflops := gpu_hours * 3600 * GPU_TFLOPS
  let cost := gpu_hours * GPU_HOURLY_COST
  pure (gpu_hours, total_tflops, cost)

/-- Body of `translation_doc_time` evaluated under an explicit ambient
state; the body references only the module constants and the arguments. -/
def translation_doc_timeAt ( _a : Ambient) (words : ℤ) (num_gpus : ℤ) : Option ℚ := do
  let words_per_min_total := WORDS_PER_MIN_TRANSLATION * (num_gpus : ℚ)
  pydiv (words : ℚ) words_per_min_total

/-- Body of `llm_chat_estimates` evaluated under an explicit ambient state;
the body references only the module constants and the argument. -/
def llm_chat_estimatesAt ( _a : Ambient) (users_per_day : ℤ) : Option (ℤ × ℚ × ℚ × ℚ) := do
  let tokens := users_per_day * TOKENS_PER_USER_PER_DAY
  let flops_day := (tokens : ℚ) * FLOPS_PER_TOKEN
  let flops_per_second := GPU_TFLOPS * 1000000000000
  let gpu_seconds ← pydiv flops_day flops_per_second
  let gpu_hours ← pydiv gpu_seconds 3600
  let total_tflops := gpu_hours * 3600 * GPU_TFLOPS
  let cost := gpu_hours * GPU_HOURLY_COST
  pure (tokens, gpu_hours, total_tflops, cost)

/-- Closed form of the translation estimator. -/
lemma translation_estimates_eq (w : ℤ) :
    translation_estimates w
      = some ((w : ℚ) / 60000, (w : ℚ) * 27 / 5, (w : ℚ) / 30000) := by
  simp only [translation_estimates, pydiv, WORDS_PER_HOUR_TRANSLATION,
    WORDS_PER_MIN_TRANSLATION, GPU_TFLOPS, GPU_HOURLY_COST]
  norm_num
  constructor
  · ring
  · ring

/-- Closed form of the chat estimator. -/
lemma llm_chat_estimates_eq (u : ℤ) :
    llm_chat_estimates u
      = some (u * 3000, (u : ℚ) * 13 / 54000, (u : ℚ) * 78, (u : ℚ) * 13 / 27000) := by
  simp only [llm_chat_estimates, pydiv, GPU_TFLOPS, FLOPS_PER_TOKEN,
    LLM_PARAMS_BILLIONS, GPU_HOURLY_COST, TOKENS_PER_USER_PER_DAY]
  norm_num
  refine ⟨by ring, by ring, by ring⟩

/-- Closed form of the document-latency function away from zero GPUs. -/
lemma translation_doc_time_eq (w g : ℤ) (hg : g ≠ 0) :
    translation_doc_time w g = some ((w : ℚ) / (1000 * (g : ℚ))) := by
  have hg' : (g : ℚ) ≠ 0 := Int.cast_ne_zero.mpr hg
  simp only [translation_doc_time, pydiv, WORDS_PER_MIN_TRANSLATION]
  rw [if_neg (by exact mul_ne_zero (by norm_num) hg')]

/-- C1: for every input, the cost component returned by
`translation_estimates` and by `llm_chat_estimates` equals the returned
resource-hours component multiplied by the hourly cost constant (2.0)
exactly. -/
theorem cost_is_hours_times_hourly_cost (w u : ℤ) :
    Option.map (fun r => r.2.2) (translation_estimates w)
        = Option.map (fun r => r.1 * GPU_HOURLY_COST) (translation_estimates w)
    ∧ Option.map (fun r => r.2.2.2) (llm_chat_estimates u)
        = Option.map (fun r => r.2.1 * GPU_HOURLY_COST) (llm_chat_estimates u) := by
  rw [translation_estimates_eq, llm_chat_estimates_eq]
  constructor
  · simp only [Option.map_some', Option.some.injEq, GPU_HOURLY_COST]
    ring
  · simp only [Option.map_some', Option.some.injEq, GPU_HOURLY_COST]
    ring

/-- C2: for every input, the total-operations component returned by
`translation_estimates` and by `llm_chat_estimates` equals the returned
resource-hours component multiplied by 3600 and by the peak-throughput
constant (90) exactly, in both estimators. -/
theorem total_ops_is_hours_times_peak_rate (w u : ℤ) :
    Option.map (fun r => r.2.1) (translation_estimates w)
        = Option.map (fun r => r.1 * 3600 * GPU_TFLOPS) (translation_estimates w)
    ∧ Option.map (fun r => r.2.2.1) (llm_chat_estimates u)
        = Option.map (fun r => r.2.1 * 3600 * GPU_TFLOPS) (llm_chat_estimates u) := by
  rw [translation_estimates_eq, llm_chat_estimates_eq]
  constructor
  · simp only [Option.map_some', Option.some.injEq, GPU_TFLOPS]
    ring
  · simp only [Option.map_some', Option.some.injEq, GPU_TFLOPS]
    ring

/-- C3: `llm_chat_estimates 1` returns tokens = 3000, and for every `N > 0`
the call at `2 * N` returns exactly double the tokens, resource-hours and
cost of the call at `N`. -/
theorem chat_tokens_and_linearity :
    Option.map (fun r => r.1) (llm_chat_estimates 1) = some 3000
    ∧ ∀ N : ℤ, 0 < N →
        Option.map (fun r => (r.1, r.2.1, r.2.2.2)) (llm_chat_estimates (2 * N))
          = Option.map (fun r => (2 * r.1, 2 * r.2.1, 2 * r.2.2.2)) (llm_chat_estimates N) := by
  constructor
  · rw [llm_chat_estimates_eq]
    rfl
  · intro N _
    rw [llm_chat_estimates_eq, llm_chat_estimates_eq]
    simp only [Option.map_some', Option.some.injEq, Prod.mk.injEq]
    push_cast
    refine ⟨by ring, by ring, by ring⟩

/-- Witness for C3 at `N = 1`. -/
theorem chat_linearity_witness :
    (0 : ℤ) < 1
    ∧ Option.map (fun r => (r.1, r.2.1, r.2.2.2)) (llm_chat_estimates (2 * 1))
        = Option.map (fun r => (2 * r.1, 2 * r.2.1, 2 * r.2.2.2)) (llm_chat_estimates 1) :=
  ⟨by decide, chat_tokens_and_linearity.2 1 (by decide)⟩

/-- C4: `translation_doc_time 10000 1` returns 10.0 minutes,
`translation_doc_time 10000 2` returns 5.0 minutes, and for every word count
and every positive resource count `g`, the call with `2 * g` resources
returns exactly half the minutes returned with `g` resources. -/
theorem doc_time_values_and_halving :
    translation_doc_time 10000 1 = some 10
    ∧ translation_doc_time 10000 2 = some 5
    ∧ ∀ (w g : ℤ), 0 < g →
        translation_doc_time w (2 * g)
          = Option.map (fun m => m / 2) (translation_doc_time w g) := by
  refine ⟨?_, ?_, ?_⟩
  · rw [translation_doc_time_eq 10000 1 (by decide)]
    norm_num
  · rw [translation_doc_time_eq 10000 2 (by decide)]
    norm_num
  · intro w g hg
    have hg0 : g ≠ 0 := ne_of_gt hg
    have h2g : (2 * g : ℤ) ≠ 0 := mul_ne_zero two_ne_zero hg0
    rw [translation_doc_time_eq w (2 * g) h2g, translation_doc_time_eq w g hg0]
    simp only [Option.map_some', Option.some.injEq]
    push_cast
    rw [div_div]
    ring_nf

/-- Witness for C4 at `w = 7`, `g = 3`. -/
theorem doc_time_halving_witness :
    (0 : ℤ) < 3
    ∧ translation_doc_time 7 (2 * 3) = Option.map (fun m => m / 2) (translation_doc_time 7 3) :=
  ⟨by decide, doc_time_values_and_halving.2.2 7 3 (by decide)⟩

/-- C5: `translation_estimates 60000` returns exactly resource-hours = 1,
total-operations = 324000 and cost = 2. -/
theorem translation_estimates_at_60000 :
    translation_estimates 60000 = some (1, 324000, 2) := by
  rw [translation_estimates_eq]
  norm_num

/-- C6: the round-trip total-operations value reported by
`llm_chat_estimates` equals the direct derivation tokens times
operations-per-token expressed in tera-operations, for every user count. -/
theorem chat_round_trip_equals_direct (u : ℤ) :
    Option.map (fun r => r.2.2.1) (llm_chat_estimates u)
      = some (llm_chat_total_ops_direct u) := by
  rw [llm_chat_estimates_eq]
  simp only [Option.map_some', Option.some.injEq, llm_chat_total_ops_direct,
    FLOPS_PER_TOKEN, LLM_PARAMS_BILLIONS, TOKENS_PER_USER_PER_DAY]
  push_cast
  ring

/-- C7: the three calculation functions are deterministic pure functions of
the module constants and their arguments: under any two ambient interpreter
states (wall clock, execution order, environment) they return identical
results, equal to the state-free embedding. -/
theorem estimators_deterministic (a₁ a₂ : Ambient) (w d g u : ℤ) :
    translation_estimatesAt a₁ w = translation_estimatesAt a₂ w
    ∧ translation_doc_timeAt a₁ d g = translation_doc_timeAt a₂ d g
    ∧ llm_chat_estimatesAt a₁ u = llm_chat_estimatesAt a₂ u
    ∧ translation_estimatesAt a₁ w = translation_estimates w
    ∧ translation_doc_timeAt a₁ d g = translation_doc_time d g
    ∧ llm_chat_estimatesAt a₁ u = llm_chat_estimates u :=
  ⟨rfl, rfl, rfl, rfl, rfl, rfl⟩

/-- C8: `translation_estimates` never raises: for every word count the
division is by the fixed positive constant 60000, so the function is total
and always returns a value. -/
theorem translation_estimates_never_raises (w : ℤ) :
    (translation_estimates w).isSome = true := by
  rw [translation_estimates_eq]
  rfl

/-- C9: generating both reports over the documented scenario lists never
raises, every numeric field placed in the report equals the corresponding
component of the estimator tuples, and the displayed value at `d` decimals
is within half of the last displayed digit of the exact component. -/
theorem summary_fields_match_estimates :
    translation_summary_fields
      = some ([10, 5],
          [(10000, 1/6, 54000, 1/3), (100000, 5/3, 540000, 10/3),
           (1000000, 50/3, 5400000, 100/3)])
    ∧ llm_chat_summary_fields
      = some [(100, 300000, 13/540, 7800, 13/270),
          (10000, 30000000, 65/27, 780000, 130/27),
          (100000, 300000000, 650/27, 7800000, 1300/27)]
    ∧ ∀ (d : ℕ) (x : ℚ), |fmtRound d x - x| ≤ 1 / (2 * 10 ^ d) := by
  refine ⟨?_, ?_, ?_⟩
  · simp only [translation_summary_fields, List.mapM_cons, List.mapM_nil,
      translation_doc_time_eq 10000 1 one_ne_zero, translation_doc_time_eq 10000 2 two_ne_zero,
      translation_estimates_eq]
    norm_num [bind, Option.bind, pure]
  · simp only [llm_chat_summary_fields, List.mapM_cons, List.mapM_nil, llm_chat_estimates_eq]
    norm_num [bind, Option.bind, pure]
  intro d x
  have h10 : (0 : ℚ) < 10 ^ d := by positivity
  have hb : |x * 10 ^ d - (round (x * 10 ^ d) : ℚ)| ≤ 1 / 2 := abs_sub_round (x * 10 ^ d)
  have hrw : fmtRound d x - x = ((round (x * 10 ^ d) : ℚ) - x * 10 ^ d) / 10 ^ d := by
    rw [fmtRound]
    field_simp
    ring
  rw [hrw, abs_div, abs_of_pos h10,
    show (1 : ℚ) / (2 * 10 ^ d) = (1 / 2) / 10 ^ d by ring]
  gcongr
  rw [abs_sub_comm]
  exact hb

/-- C10: calling `translation_doc_time` with `num_gpus = 0` divides by zero
and raises for every word count, since the divisor `1000 * num_gpus` is
zero. -/
theorem doc_time_zero_gpus_raises (w : ℤ) :
    translation_doc_time w 0 = none := by
  simp [translation_doc_time, pydiv, WORDS_PER_MIN_TRANSLATION]

end DevopsTestCalculations
